import Mathlib

/-!
Shallow embedding of `app.py` (docs_classifier): a Streamlit form that
uploads a PDF/DOCX document, extracts its text, substitutes it into a
prompt template and sends it to the GigaChat chat-completion API.

External libraries (document loaders, prompt-template parsing, client
construction, the chat call) are modelled as oracles collected in `Env`;
the filesystem is an explicit `FS` value; user-visible and external
effects are collected in a trace of `Effect`s. Machine behaviour that can
raise is modelled with `Except`.
-/

namespace App

/-- Python `s.endswith(suff)` on strings, as used by
`extract_text_from_file` (app.py lines 58 and 60). -/
def strEndsWith (s suff : String) : Bool :=
  List.isSuffixOf suff.data s.data

def firstTokenAux : List Char → List Char
  | [] => []
  | c :: cs => if c = ' ' then [] else c :: firstTokenAux cs

/-- Python `s.split(" ")[0]`: the prefix of `s` up to (not including) the
first space character (app.py lines 122 and 124). -/
def firstToken (s : String) : String :=
  ⟨firstTokenAux s.data⟩

/-- A langchain document: we only need its `page_content` field. -/
structure Document where
  page_content : String
deriving DecidableEq, Repr

/-- A Streamlit uploaded file: its original `name` and the bytes returned
by `getbuffer()`. -/
structure UploadedFile where
  name : String
  buffer : List Nat
deriving DecidableEq, Repr

/-- The keyword arguments passed to the `GigaChat` client constructor
(app.py lines 136-142). `temperature` is the literal 0 and
`verify_ssl_certs` the literal `False`. -/
structure GigaChatArgs where
  model : String
  credentials : String
  scope : String
  temperature : Nat
  verify_ssl_certs : Bool
deriving DecidableEq, Repr

/-- Observable effects of a run: log lines, Streamlit error banners,
filesystem writes/removals, the outbound chat request, and the rendered
result header/markdown. -/
inductive Effect where
  | logError (msg : String)
  | stError (msg : String)
  | writeFile (name : String) (contents : List Nat)
  | removeFile (name : String)
  | chatCall (llm : GigaChatArgs) (template : String) (document_text : Option String)
  | header (text : String)
  | markdown (text : String)
deriving DecidableEq, Repr

/-- The filesystem, as an association list from file names to contents. -/
structure FS where
  files : List (String × List Nat)
deriving DecidableEq, Repr

def FS.existsFile (fs : FS) (name : String) : Bool :=
  fs.files.any (fun p => p.1 == name)

def FS.write (fs : FS) (name : String) (contents : List Nat) : FS :=
  ⟨(name, contents) :: fs.files⟩

/-- Python `os.remove` (app.py line 153); modelled best-effort, removing
every entry under the name. -/
def FS.remove (fs : FS) (name : String) : FS :=
  ⟨fs.files.filter (fun p => p.1 != name)⟩

/-- Oracles for the external libraries used by `app.py`, plus the uuid
generated for the current request. `docxText` is the full text docx2txt
recovers from a `.docx` file (or the exception it raises); `pdfPages` the
per-page texts pypdf recovers (or the exception); `templateOk` whether
`PromptTemplate.from_template` accepts the prompt; `clientOk` whether the
`GigaChat` constructor accepts its arguments; `invoke` the outcome of
`chain.invoke` for a given prompt template, client arguments and
substituted document text. -/
structure Env where
  docxText : String → Except String String
  pdfPages : String → Except String (List String)
  templateOk : String → Except String Unit
  clientOk : GigaChatArgs → Except String Unit
  invoke : String → GigaChatArgs → Option String → Except String String
  uuid : String

/-- The delimiter langchain's PyPDFLoader puts between pages in
single-document mode (a newline followed by a form feed). -/
def pagesDelimiter : String := "\n\x0c"

/-- Concatenation of the page texts with `pagesDelimiter` between pages. -/
def joinPages : List String → String
  | [] => ""
  | [p] => p
  | p :: ps => p ++ pagesDelimiter ++ joinPages ps

/-- Python `Docx2txtLoader(path).load()` (app.py line 59): one document
holding the full extracted text, or the loader's exception. -/
def Docx2txtLoader_load (env : Env) (path : String) : Except String (List Document) :=
  match env.docxText path with
  | .error e => .error e
  | .ok t => .ok [⟨t⟩]

/-- Python `PyPDFLoader(path, mode="single").load()` (app.py line 61):
one document whose text concatenates all pages, or the exception. -/
def PyPDFLoader_single_load (env : Env) (path : String) : Except String (List Document) :=
  match env.pdfPages path with
  | .error e => .error e
  | .ok pages => .ok [⟨joinPages pages⟩]

/-- Python `docs[0].page_content`: the first document's text, or the
IndexError message when the list is empty. -/
def load_first (docs : Except String (List Document)) : Except String String :=
  match docs with
  | .error e => .error e
  | .ok [] => .error "list index out of range"
  | .ok (d :: _) => .ok d.page_content

def unsupportedMsg (f : String) : String :=
  "Неподдерживаемый формат файла: " ++ f

def readErrMsg (f e : String) : String :=
  "Ошибка при чтении файла " ++ f ++ ": " ++ e

def chatErrMsg (e : String) : String :=
  "Не удалось выполнить анализ документа. Ошибка: " ++ e

def missingInputMsg : String :=
  "Для анализа документа необходимо загрузить файл и ввести API ключ"

def resultHeader : String := "📊 Результат анализа документа"

/-- The try-block of `extract_text_from_file` (app.py lines 57-64): the
extension dispatch, where the unsupported-extension branch logs and then
raises a ValueError carrying the same message. `.error` means an
exception reaching the except-handler. -/
def extract_try (env : Env) (uploaded_file : String) : Except String String × List Effect :=
  if strEndsWith uploaded_file ".docx" then
    (load_first (Docx2txtLoader_load env uploaded_file), [])
  else if strEndsWith uploaded_file ".pdf" then
    (load_first (PyPDFLoader_single_load env uploaded_file), [])
  else
    (.error (unsupportedMsg uploaded_file), [.logError (unsupportedMsg uploaded_file)])

/-- Python `extract_text_from_file` (app.py lines 40-67). The outer
`Except` is the function boundary: `.error` would mean an exception
escaping the function. The except-handler logs the error and shows it via
`st.error`, and falls off the function end, returning `None`. -/
def extract_text_from_file (env : Env) (uploaded_file : String) :
    Except String (Option String) × List Effect :=
  match extract_try env uploaded_file with
  | (.ok text, effs) => (.ok (some text), effs)
  | (.error e, effs) =>
      (.ok none,
       effs ++ [.logError (readErrMsg uploaded_file e), .stError (readErrMsg uploaded_file e)])

/-- Python `get_model` (app.py lines 70-85): a fixed dict lookup;
`.error` is the KeyError raised for a label outside the dict. -/
def get_model (model_name : String) : Except String String :=
  if model_name = "GigaChat-Lite" then .ok "GigaChat"
  else if model_name = "GigaChat-Pro" then .ok "GigaChat-Pro"
  else if model_name = "GigaChat-Max" then .ok "GigaChat-Max"
  else .error ("KeyError: " ++ model_name)

/-- Python `save_file` (app.py lines 23-37): writes the uploaded bytes to
a file named from the request's uuid and the original file name, and
returns that name. -/
def save_file (unique_id : String) (file : UploadedFile) (fs : FS) :
    String × FS × List Effect :=
  let file_name := unique_id ++ "_" ++ file.name
  (file_name, fs.write file_name file.buffer, [.writeFile file_name file.buffer])

/-- The three routes of the extension dispatch in
`extract_text_from_file`. -/
inductive Route where
  | docx
  | pdf
  | unsupported
deriving DecidableEq, Repr

/-- The dispatch decision of `extract_text_from_file`, isolated. -/
def dispatch (f : String) : Route :=
  if strEndsWith f ".docx" then .docx
  else if strEndsWith f ".pdf" then .pdf
  else .unsupported

/-- The model selector options (app.py lines 104-112). -/
def modelOptions : List String :=
  ["GigaChat-Lite ⚡", "GigaChat-Pro ⚡⚡", "GigaChat-Max ⚡⚡⚡"]

/-- The scope selector options (app.py lines 114-121). -/
def scopeOptions : List String :=
  ["GIGACHAT_API_PERS (для физических лиц)", "GIGACHAT_API_CORP", "GIGACHAT_API_B2B"]

/-- Result of one run of `main`: `outcome` is `.error e` when an
exception propagates out of `main` uncaught; `effects` the trace;
`fs` the final filesystem. -/
structure MainResult where
  outcome : Except String Unit
  effects : List Effect
  fs : FS

/-- Python `main` (app.py lines 88-157), for one rendering of the page
with the given widget values. Pure widget rendering is not tracked; the
trace records log lines, error banners, file writes/removals, the chat
request and the rendered result. Control flow follows the source: the
`try/finally` around `chain.invoke` is entered only after
`extract_text_from_file`, `PromptTemplate.from_template` and the
`GigaChat` constructor have all completed, so an exception in the latter
two skips the `finally` and propagates. -/
def main (env : Env) (document : Option UploadedFile) (prompt : String)
    (api_key : String) (model_choice : String) (scope_choice : String)
    (start_button : Bool) (fs : FS) : MainResult :=
  let scope := firstToken scope_choice
  match get_model (firstToken model_choice) with
  | .error e => ⟨.error e, [], fs⟩
  | .ok model =>
    if start_button then
      match document with
      | some file =>
        if api_key ≠ "" then
          match save_file env.uuid file fs with
          | (document_path, fs1, effs0) =>
            match extract_text_from_file env document_path with
            | (.error e, effs1) => ⟨.error e, effs0 ++ effs1, fs1⟩
            | (.ok document_text, effs1) =>
              match env.templateOk prompt with
              | .error e => ⟨.error e, effs0 ++ effs1, fs1⟩
              | .ok _ =>
                let llm : GigaChatArgs := ⟨model, api_key, scope, 0, false⟩
                match env.clientOk llm with
                | .error e => ⟨.error e, effs0 ++ effs1, fs1⟩
                | .ok _ =>
                  match env.invoke prompt llm document_text with
                  | .ok result =>
                    ⟨.ok (),
                     effs0 ++ effs1 ++
                       [.chatCall llm prompt document_text, .header resultHeader,
                        .markdown result, .removeFile document_path],
                     fs1.remove document_path⟩
                  | .error e =>
                    ⟨.ok (),
                     effs0 ++ effs1 ++
                       [.chatCall llm prompt document_text, .stError (chatErrMsg e),
                        .removeFile document_path],
                     fs1.remove document_path⟩
        else ⟨.ok (), [.stError missingInputMsg], fs⟩
      | none => ⟨.ok (), [.stError missingInputMsg], fs⟩
    else ⟨.ok (), [], fs⟩

/-- A well-behaved concrete environment: both loaders succeed, the
template parses, the client constructs, the chat call returns a result. -/
def okEnv : Env where
  docxText := fun _ => .ok "docx text"
  pdfPages := fun _ => .ok ["page one", "page two"]
  templateOk := fun _ => .ok ()
  clientOk := fun _ => .ok ()
  invoke := fun _ _ _ => .ok "analysis result"
  uuid := "123e4567-e89b-42d3-a456-426614174000"

/-- Like `okEnv`, except that `PromptTemplate.from_template` rejects the
malformed template consisting of a single opening brace, as the real
library does. -/
def tmplFailEnv : Env :=
  { okEnv with
    templateOk := fun p =>
      if p = "\x7b" then .error "Single opening brace encountered in format string"
      else .ok () }

/-- Like `okEnv`, except that the docx loader raises on every file. -/
def docxFailEnv : Env :=
  { okEnv with docxText := fun _ => .error "file is corrupt" }

def pdfFile : UploadedFile := ⟨"report.pdf", [37, 80, 68, 70]⟩

def docxFile : UploadedFile := ⟨"report.docx", [80, 75, 3, 4]⟩

def fs0 : FS := ⟨[]⟩

theorem extract_fst_ok (env : Env) (f : String) :
    ∃ v, (extract_text_from_file env f).1 = Except.ok v := by
  unfold extract_text_from_file
  rcases h : extract_try env f with ⟨r, effs⟩
  cases r with
  | error e => exact ⟨none, rfl⟩
  | ok t => exact ⟨some t, rfl⟩

theorem any_filter_ne (l : List (String × List Nat)) (n : String) :
    (l.filter (fun p => p.1 != n)).any (fun p => p.1 == n) = false := by
  induction l with
  | nil => rfl
  | cons a l ih =>
    rcases a with ⟨nm, c⟩
    by_cases h : nm = n
    · subst h
      simp only [List.filter_cons, bne_self_eq_false, cond_false]
      exact ih
    · simp only [List.filter_cons, bne_iff_ne, ne_eq, h, not_false_eq_true, ite_true,
        List.any_cons, beq_iff_eq]
      simp [h, ih]

theorem existsFile_remove (fs : FS) (n : String) :
    (fs.remove n).existsFile n = false :=
  any_filter_ne fs.files n

theorem main_run_ok (env : Env) (file : UploadedFile)
    (prompt api_key mc sc m : String) (fs : FS) (v : Option String)
    (effs1 : List Effect) (r : String)
    (hm : get_model (firstToken mc) = Except.ok m)
    (hkey : api_key ≠ "")
    (he : extract_text_from_file env (env.uuid ++ "_" ++ file.name) = (Except.ok v, effs1))
    (ht : env.templateOk prompt = Except.ok ())
    (hc : env.clientOk ⟨m, api_key, firstToken sc, 0, false⟩ = Except.ok ())
    (hi : env.invoke prompt ⟨m, api_key, firstToken sc, 0, false⟩ v = Except.ok r) :
    main env (some file) prompt api_key mc sc true fs =
      ⟨Except.ok (),
       Effect.writeFile (env.uuid ++ "_" ++ file.name) file.buffer ::
         (effs1 ++
           [Effect.chatCall ⟨m, api_key, firstToken sc, 0, false⟩ prompt v,
            Effect.header resultHeader, Effect.markdown r,
            Effect.removeFile (env.uuid ++ "_" ++ file.name)]),
       (fs.write (env.uuid ++ "_" ++ file.name) file.buffer).remove
         (env.uuid ++ "_" ++ file.name)⟩ := by
  simp only [main, save_file, hm, he, ht, hc, hi, if_pos hkey, if_true]
  rfl

theorem main_run_err (env : Env) (file : UploadedFile)
    (prompt api_key mc sc m : String) (fs : FS) (v : Option String)
    (effs1 : List Effect) (e : String)
    (hm : get_model (firstToken mc) = Except.ok m)
    (hkey : api_key ≠ "")
    (he : extract_text_from_file env (env.uuid ++ "_" ++ file.name) = (Except.ok v, effs1))
    (ht : env.templateOk prompt = Except.ok ())
    (hc : env.clientOk ⟨m, api_key, firstToken sc, 0, false⟩ = Except.ok ())
    (hi : env.invoke prompt ⟨m, api_key, firstToken sc, 0, false⟩ v = Except.error e) :
    main env (some file) prompt api_key mc sc true fs =
      ⟨Except.ok (),
       Effect.writeFile (env.uuid ++ "_" ++ file.name) file.buffer ::
         (effs1 ++
           [Effect.chatCall ⟨m, api_key, firstToken sc, 0, false⟩ prompt v,
            Effect.stError (chatErrMsg e),
            Effect.removeFile (env.uuid ++ "_" ++ file.name)]),
       (fs.write (env.uuid ++ "_" ++ file.name) file.buffer).remove
         (env.uuid ++ "_" ++ file.name)⟩ := by
  simp only [main, save_file, hm, he, ht, hc, hi, if_pos hkey, if_true]
  rfl

theorem append_underscore_inj (a b c d : String)
    (hlen : a.length = c.length) (h : a ++ "_" ++ b = c ++ "_" ++ d) : a = c := by
  have hd := congrArg String.data h
  rw [String.data_append, String.data_append, String.data_append, String.data_append] at hd
  have hu : ("_" : String).data = ['_'] := rfl
  rw [hu] at hd
  have h1 : a.data ++ ('_' :: b.data) = c.data ++ ('_' :: d.data) := by
    simpa [List.append_assoc] using hd
  have hlen2 : a.data.length = c.data.length := hlen
  exact String.ext (List.append_inj h1 hlen2).1

/-- C3: for every file path whose extension is neither `.pdf` nor `.docx`,
`extract_text_from_file` logs the unsupported-format error, logs and
reports the resulting read error to the user via `st.error`, and returns
no text (`None`). -/
theorem C3_unsupported_format (env : Env) (f : String)
    (h1 : strEndsWith f ".docx" = false) (h2 : strEndsWith f ".pdf" = false) :
    extract_text_from_file env f =
      (Except.ok none,
       [Effect.logError (unsupportedMsg f),
        Effect.logError (readErrMsg f (unsupportedMsg f)),
        Effect.stError (readErrMsg f (unsupportedMsg f))]) := by
  unfold extract_text_from_file extract_try
  rw [h1, h2]
  rfl

/-- C3 witness: the concrete path note.txt is rejected with the
unsupported-format error and yields no text. -/
theorem C3_witness :
    strEndsWith "note.txt" ".docx" = false
    ∧ strEndsWith "note.txt" ".pdf" = false
    ∧ extract_text_from_file okEnv "note.txt" =
      (Except.ok none,
       [Effect.logError (unsupportedMsg "note.txt"),
        Effect.logError (readErrMsg "note.txt" (unsupportedMsg "note.txt")),
        Effect.stError (readErrMsg "note.txt" (unsupportedMsg "note.txt"))]) :=
  ⟨rfl, rfl, C3_unsupported_format okEnv "note.txt" rfl rfl⟩

/-- C4: `get_model` maps the three fixed labels GigaChat-Lite,
GigaChat-Pro and GigaChat-Max to the identifiers GigaChat, GigaChat-Pro
and GigaChat-Max respectively, every label in the fixed selector list
maps to a known identifier, and every other input string raises a
KeyError lookup failure. -/
theorem C4_get_model_total :
    get_model "GigaChat-Lite" = Except.ok "GigaChat"
    ∧ get_model "GigaChat-Pro" = Except.ok "GigaChat-Pro"
    ∧ get_model "GigaChat-Max" = Except.ok "GigaChat-Max"
    ∧ (∀ c ∈ modelOptions, ∃ id, get_model (firstToken c) = Except.ok id)
    ∧ (∀ s : String, s ≠ "GigaChat-Lite" → s ≠ "GigaChat-Pro" → s ≠ "GigaChat-Max" →
        get_model s = Except.error ("KeyError: " ++ s)) := by
  refine ⟨rfl, rfl, rfl, ?_, ?_⟩
  · intro c hc
    simp only [modelOptions, List.mem_cons, List.not_mem_nil, or_false] at hc
    rcases hc with rfl | rfl | rfl
    · exact ⟨"GigaChat", rfl⟩
    · exact ⟨"GigaChat-Pro", rfl⟩
    · exact ⟨"GigaChat-Max", rfl⟩
  · intro s hs1 hs2 hs3
    unfold get_model
    rw [if_neg hs1, if_neg hs2, if_neg hs3]

/-- C4 witness: the out-of-table label GigaChat-Ultra raises a KeyError,
while GigaChat-Lite maps to GigaChat. -/
theorem C4_witness :
    ("GigaChat-Ultra" : String) ≠ "GigaChat-Lite"
    ∧ ("GigaChat-Ultra" : String) ≠ "GigaChat-Pro"
    ∧ ("GigaChat-Ultra" : String) ≠ "GigaChat-Max"
    ∧ get_model "GigaChat-Ultra" = Except.error ("KeyError: " ++ "GigaChat-Ultra")
    ∧ get_model "GigaChat-Lite" = Except.ok "GigaChat" :=
  ⟨by decide, by decide, by decide,
   C4_get_model_total.2.2.2.2 "GigaChat-Ultra" (by decide) (by decide) (by decide),
   C4_get_model_total.1⟩

/-- C5: `extract_text_from_file` dispatches purely on the file-path
extension: a `.docx` path is routed to the docx loader and yields the
first loaded document's full text, a `.pdf` path is routed to the pdf
loader in single mode and yields the concatenation of all pages, and the
dispatch depends on nothing but the two extension tests. -/
theorem C5_dispatch_by_extension (env : Env) (f g : String) :
    (strEndsWith f ".docx" = true →
      extract_try env f = (load_first (Docx2txtLoader_load env f), []))
    ∧ (strEndsWith f ".docx" = false → strEndsWith f ".pdf" = true →
      extract_try env f = (load_first (PyPDFLoader_single_load env f), []))
    ∧ (∀ t, env.docxText f = Except.ok t → strEndsWith f ".docx" = true →
      (extract_text_from_file env f).1 = Except.ok (some t))
    ∧ (∀ pages, env.pdfPages f = Except.ok pages → strEndsWith f ".docx" = false →
      strEndsWith f ".pdf" = true →
      (extract_text_from_file env f).1 = Except.ok (some (joinPages pages)))
    ∧ (strEndsWith f ".docx" = strEndsWith g ".docx" →
      strEndsWith f ".pdf" = strEndsWith g ".pdf" → dispatch f = dispatch g) := by
  refine ⟨?_, ?_, ?_, ?_, ?_⟩
  · intro h
    unfold extract_try
    rw [h]
    rfl
  · intro h1 h2
    unfold extract_try
    rw [h1, h2]
    rfl
  · intro t ht h
    unfold extract_text_from_file extract_try Docx2txtLoader_load load_first
    rw [h, ht]
    rfl
  · intro pages hp h1 h2
    unfold extract_text_from_file extract_try PyPDFLoader_single_load load_first
    rw [h1, h2, hp]
    rfl
  · intro h1 h2
    unfold dispatch
    rw [h1, h2]

/-- C5 witness: a concrete docx path yields the docx loader's full text
and a concrete pdf path yields the page concatenation. -/
theorem C5_witness :
    okEnv.docxText "report.docx" = Except.ok "docx text"
    ∧ strEndsWith "report.docx" ".docx" = true
    ∧ (extract_text_from_file okEnv "report.docx").1 = Except.ok (some "docx text")
    ∧ okEnv.pdfPages "paper.pdf" = Except.ok ["page one", "page two"]
    ∧ strEndsWith "paper.pdf" ".docx" = false
    ∧ strEndsWith "paper.pdf" ".pdf" = true
    ∧ (extract_text_from_file okEnv "paper.pdf").1 =
        Except.ok (some (joinPages ["page one", "page two"])) :=
  ⟨rfl, rfl,
   (C5_dispatch_by_extension okEnv "report.docx" "report.docx").2.2.1 "docx text" rfl rfl,
   rfl, rfl, rfl,
   (C5_dispatch_by_extension okEnv "paper.pdf" "paper.pdf").2.2.2.1
     ["page one", "page two"] rfl rfl rfl⟩

/-- C6: `extract_text_from_file` never lets an exception escape its
boundary: for every environment and path it returns normally, and
whenever the try-block raises, the error is converted into a log line and
a user-visible error banner with the text returned being `None`. -/
theorem C6_no_raise (env : Env) (f : String) :
    (∃ v effs, extract_text_from_file env f = (Except.ok v, effs))
    ∧ (∀ e effs0, extract_try env f = (Except.error e, effs0) →
        extract_text_from_file env f =
          (Except.ok none,
           effs0 ++ [Effect.logError (readErrMsg f e), Effect.stError (readErrMsg f e)])) := by
  constructor
  · unfold extract_text_from_file
    rcases h : extract_try env f with ⟨r, effs⟩
    cases r with
    | error e => exact ⟨none, _, rfl⟩
    | ok t => exact ⟨some t, _, rfl⟩
  · intro e effs0 h
    unfold extract_text_from_file
    rw [h]

/-- C6 witness: on the unsupported path note.md the try-block raises and
the function still returns normally, with the error logged and shown. -/
theorem C6_witness :
    extract_try okEnv "note.md" =
      (Except.error (unsupportedMsg "note.md"), [Effect.logError (unsupportedMsg "note.md")])
    ∧ extract_text_from_file okEnv "note.md" =
      (Except.ok none,
       [Effect.logError (unsupportedMsg "note.md")] ++
         [Effect.logError (readErrMsg "note.md" (unsupportedMsg "note.md")),
          Effect.stError (readErrMsg "note.md" (unsupportedMsg "note.md"))]) :=
  ⟨rfl,
   (C6_no_raise okEnv "note.md").2 (unsupportedMsg "note.md")
     [Effect.logError (unsupportedMsg "note.md")] rfl⟩

/-- C7: when the uploaded file is absent or the API key is empty, a
submission shows only the missing-input error: no temp file is written,
no extraction happens, no chat call is made, and the filesystem is
untouched. -/
theorem C7_missing_input (env : Env) (document : Option UploadedFile)
    (prompt api_key mc sc m : String) (fs : FS)
    (hm : get_model (firstToken mc) = Except.ok m)
    (hmiss : document = none ∨ api_key = "") :
    main env document prompt api_key mc sc true fs =
      ⟨Except.ok (), [Effect.stError missingInputMsg], fs⟩ := by
  rcases hmiss with h | h
  · subst h
    simp [main, hm]
  · subst h
    cases document with
    | none => simp [main, hm]
    | some file => simp [main, hm]

/-- C7 witness: submitting with no uploaded file yields exactly the
missing-input banner and leaves the empty filesystem empty. -/
theorem C7_witness :
    get_model (firstToken "GigaChat-Pro ⚡⚡") = Except.ok "GigaChat-Pro"
    ∧ ((none : Option UploadedFile) = none ∨ ("k7" : String) = "")
    ∧ main okEnv none "Classify" "k7" "GigaChat-Pro ⚡⚡" "GIGACHAT_API_B2B" true fs0 =
        ⟨Except.ok (), [Effect.stError missingInputMsg], fs0⟩ :=
  ⟨rfl, Or.inl rfl,
   C7_missing_input okEnv none "Classify" "k7" "GigaChat-Pro ⚡⚡" "GIGACHAT_API_B2B"
     "GigaChat-Pro" fs0 rfl (Or.inl rfl)⟩

/-- C9: `save_file` writes the uploaded bytes under the name formed from
the unique id, an underscore and the original file name, returns that
name, and two calls with distinct equal-length unique ids (as canonical
uuid4 strings always are) never collide on the same file name. -/
theorem C9_save_file_unique (uid1 uid2 : String) (f1 f2 : UploadedFile) (fs1 fs2 : FS)
    (hlen : uid1.length = uid2.length) (hne : uid1 ≠ uid2) :
    (save_file uid1 f1 fs1).1 = uid1 ++ "_" ++ f1.name
    ∧ (save_file uid1 f1 fs1).2.1.files = ((uid1 ++ "_" ++ f1.name, f1.buffer) :: fs1.files)
    ∧ (save_file uid1 f1 fs1).2.1.existsFile (uid1 ++ "_" ++ f1.name) = true
    ∧ (save_file uid1 f1 fs1).1 ≠ (save_file uid2 f2 fs2).1 := by
  refine ⟨rfl, rfl, ?_, ?_⟩
  · simp [save_file, FS.write, FS.existsFile]
  · intro h
    exact hne (append_underscore_inj uid1 f1.name uid2 f2.name hlen h)

/-- C9 witness: two concrete distinct ids of uuid length produce distinct
file names for distinct uploads. -/
theorem C9_witness :
    ("11111111-aaaa" : String).length = ("22222222-bbbb" : String).length
    ∧ ("11111111-aaaa" : String) ≠ "22222222-bbbb"
    ∧ (save_file "11111111-aaaa" pdfFile fs0).1 = "11111111-aaaa" ++ "_" ++ pdfFile.name
    ∧ (save_file "11111111-aaaa" pdfFile fs0).2.1.files =
        (("11111111-aaaa" ++ "_" ++ pdfFile.name, pdfFile.buffer) :: fs0.files)
    ∧ (save_file "11111111-aaaa" pdfFile fs0).2.1.existsFile
        ("11111111-aaaa" ++ "_" ++ pdfFile.name) = true
    ∧ (save_file "11111111-aaaa" pdfFile fs0).1 ≠ (save_file "22222222-bbbb" docxFile fs0).1 :=
  ⟨rfl, by decide,
   C9_save_file_unique "11111111-aaaa" "22222222-bbbb" pdfFile docxFile fs0 fs0 rfl (by decide)⟩

/-- C1 counterexample: with a malformed prompt template (a single opening
brace), the attempt writes the temp file, extraction succeeds, and
`PromptTemplate.from_template` raises before the try/finally block is
entered, so the temp file still exists on disk after the attempt and the
exception propagates. -/
theorem C1_counterexample :
    (main tmplFailEnv (some pdfFile) "\x7b" "key1" "GigaChat-Lite ⚡" "GIGACHAT_API_CORP"
        true fs0).fs.existsFile (tmplFailEnv.uuid ++ "_" ++ pdfFile.name) = true
    ∧ (main tmplFailEnv (some pdfFile) "\x7b" "key1" "GigaChat-Lite ⚡" "GIGACHAT_API_CORP"
        true fs0).outcome =
      Except.error "Single opening brace encountered in format string" :=
  ⟨rfl, rfl⟩

/-- C1 (amended): for every submission attempt that writes a temp file,
if prompt-template construction and client construction succeed, the temp
file no longer exists on disk after the attempt, whether extraction or
the chat call succeed or fail; when template or client construction
raises, the file is not cleaned up. -/
theorem C1_amended_cleanup (env : Env) (file : UploadedFile)
    (prompt api_key mc sc m : String) (fs : FS)
    (hm : get_model (firstToken mc) = Except.ok m)
    (hkey : api_key ≠ "")
    (ht : env.templateOk prompt = Except.ok ())
    (hc : env.clientOk ⟨m, api_key, firstToken sc, 0, false⟩ = Except.ok ()) :
    (main env (some file) prompt api_key mc sc true fs).fs.existsFile
      (env.uuid ++ "_" ++ file.name) = false := by
  rcases hE : extract_text_from_file env (env.uuid ++ "_" ++ file.name) with ⟨ev, effs1⟩
  have hex := extract_fst_ok env (env.uuid ++ "_" ++ file.name)
  rw [hE] at hex
  obtain ⟨v, hv⟩ := hex
  have hv2 : ev = Except.ok v := hv
  subst hv2
  cases hi : env.invoke prompt ⟨m, api_key, firstToken sc, 0, false⟩ v with
  | ok r =>
    rw [main_run_ok env file prompt api_key mc sc m fs v effs1 r hm hkey hE ht hc hi]
    exact existsFile_remove _ _
  | error e =>
    rw [main_run_err env file prompt api_key mc sc m fs v effs1 e hm hkey hE ht hc hi]
    exact existsFile_remove _ _

/-- C1 witness: a concrete well-behaved run removes the temp file. -/
theorem C1_witness :
    get_model (firstToken "GigaChat-Lite ⚡") = Except.ok "GigaChat"
    ∧ ("secret1" : String) ≠ ""
    ∧ okEnv.templateOk "Classify" = Except.ok ()
    ∧ okEnv.clientOk ⟨"GigaChat", "secret1", firstToken "GIGACHAT_API_CORP", 0, false⟩ =
        Except.ok ()
    ∧ (main okEnv (some pdfFile) "Classify" "secret1" "GigaChat-Lite ⚡" "GIGACHAT_API_CORP"
        true fs0).fs.existsFile (okEnv.uuid ++ "_" ++ pdfFile.name) = false :=
  ⟨rfl, by decide, rfl, rfl,
   C1_amended_cleanup okEnv pdfFile "Classify" "secret1" "GigaChat-Lite ⚡"
     "GIGACHAT_API_CORP" "GigaChat" fs0 rfl (by decide) rfl rfl⟩

/-- C2 counterexample: the same malformed template makes the exception
from `PromptTemplate.from_template` propagate out of `main` unhandled,
even though a non-empty file and API key were supplied. -/
theorem C2_counterexample :
    (main tmplFailEnv (some docxFile) "\x7b" "key2" "GigaChat-Pro ⚡⚡" "GIGACHAT_API_CORP"
        true fs0).outcome =
      Except.error "Single opening brace encountered in format string" :=
  rfl

/-- C2 (amended): for every submission with a file and a non-empty API
key, if prompt-template construction and client construction succeed,
`main` returns normally and either renders a markdown result (when the
chat call succeeds) or renders the chat error banner (when it fails);
when template or client construction raises, the exception propagates out
of `main`. -/
theorem C2_amended_outcomes (env : Env) (file : UploadedFile)
    (prompt api_key mc sc m : String) (fs : FS)
    (hm : get_model (firstToken mc) = Except.ok m)
    (hkey : api_key ≠ "")
    (ht : env.templateOk prompt = Except.ok ())
    (hc : env.clientOk ⟨m, api_key, firstToken sc, 0, false⟩ = Except.ok ()) :
    (main env (some file) prompt api_key mc sc true fs).outcome = Except.ok ()
    ∧ ((∃ r, Effect.markdown r ∈ (main env (some file) prompt api_key mc sc true fs).effects)
       ∨ (∃ e, Effect.stError (chatErrMsg e) ∈
            (main env (some file) prompt api_key mc sc true fs).effects)) := by
  rcases hE : extract_text_from_file env (env.uuid ++ "_" ++ file.name) with ⟨ev, effs1⟩
  have hex := extract_fst_ok env (env.uuid ++ "_" ++ file.name)
  rw [hE] at hex
  obtain ⟨v, hv⟩ := hex
  have hv2 : ev = Except.ok v := hv
  subst hv2
  cases hi : env.invoke prompt ⟨m, api_key, firstToken sc, 0, false⟩ v with
  | ok r =>
    rw [main_run_ok env file prompt api_key mc sc m fs v effs1 r hm hkey hE ht hc hi]
    refine ⟨rfl, Or.inl ⟨r, ?_⟩⟩
    simp
  | error e =>
    rw [main_run_err env file prompt api_key mc sc m fs v effs1 e hm hkey hE ht hc hi]
    refine ⟨rfl, Or.inr ⟨e, ?_⟩⟩
    simp

/-- C2 witness: a concrete well-behaved run returns normally. -/
theorem C2_witness :
    get_model (firstToken "GigaChat-Max ⚡⚡⚡") = Except.ok "GigaChat-Max"
    ∧ ("secret2" : String) ≠ ""
    ∧ okEnv.templateOk "Classify" = Except.ok ()
    ∧ okEnv.clientOk ⟨"GigaChat-Max", "secret2", firstToken "GIGACHAT_API_CORP", 0, false⟩ =
        Except.ok ()
    ∧ (main okEnv (some docxFile) "Classify" "secret2" "GigaChat-Max ⚡⚡⚡"
        "GIGACHAT_API_CORP" true fs0).outcome = Except.ok () :=
  ⟨rfl, by decide, rfl, rfl,
   (C2_amended_outcomes okEnv docxFile "Classify" "secret2" "GigaChat-Max ⚡⚡⚡"
     "GIGACHAT_API_CORP" "GigaChat-Max" fs0 rfl (by decide) rfl rfl).1⟩

/-- C8 counterexample: when the user chooses the personal-scope selector
option, the string passed to the client's scope parameter is its first
space-delimited token, which differs from the chosen option string. -/
theorem C8_counterexample :
    (main okEnv (some pdfFile) "Classify" "key8" "GigaChat-Lite ⚡"
        "GIGACHAT_API_PERS (для физических лиц)" true fs0).effects =
      [Effect.writeFile (okEnv.uuid ++ "_" ++ pdfFile.name) pdfFile.buffer,
       Effect.chatCall ⟨"GigaChat", "key8", "GIGACHAT_API_PERS", 0, false⟩ "Classify"
         (some (joinPages ["page one", "page two"])),
       Effect.header resultHeader,
       Effect.markdown "analysis result",
       Effect.removeFile (okEnv.uuid ++ "_" ++ pdfFile.name)]
    ∧ ("GIGACHAT_API_PERS" : String) ≠ "GIGACHAT_API_PERS (для физических лиц)" :=
  ⟨rfl, by decide⟩

/-- C8 (amended): the scope string passed to the client is the first
space-delimited token of the chosen selector option; for the
GIGACHAT_API_CORP and GIGACHAT_API_B2B options that token is the full
chosen string unmodified, while the personal option has its parenthetical
description stripped. -/
theorem C8_amended_scope (env : Env) (file : UploadedFile)
    (prompt api_key mc sc m : String) (fs : FS)
    (hm : get_model (firstToken mc) = Except.ok m)
    (hkey : api_key ≠ "")
    (ht : env.templateOk prompt = Except.ok ())
    (hc : env.clientOk ⟨m, api_key, firstToken sc, 0, false⟩ = Except.ok ()) :
    (∃ v, Effect.chatCall ⟨m, api_key, firstToken sc, 0, false⟩ prompt v ∈
      (main env (some file) prompt api_key mc sc true fs).effects)
    ∧ (sc = "GIGACHAT_API_CORP" ∨ sc = "GIGACHAT_API_B2B" → firstToken sc = sc) := by
  constructor
  · rcases hE : extract_text_from_file env (env.uuid ++ "_" ++ file.name) with ⟨ev, effs1⟩
    have hex := extract_fst_ok env (env.uuid ++ "_" ++ file.name)
    rw [hE] at hex
    obtain ⟨v, hv⟩ := hex
    have hv2 : ev = Except.ok v := hv
    subst hv2
    refine ⟨v, ?_⟩
    cases hi : env.invoke prompt ⟨m, api_key, firstToken sc, 0, false⟩ v with
    | ok r =>
      rw [main_run_ok env file prompt api_key mc sc m fs v effs1 r hm hkey hE ht hc hi]
      simp
    | error e =>
      rw [main_run_err env file prompt api_key mc sc m fs v effs1 e hm hkey hE ht hc hi]
      simp
  · rintro (rfl | rfl) <;> rfl

/-- C8 witness: for the corporate option the token passed through is the
chosen string itself. -/
theorem C8_witness :
    get_model (firstToken "GigaChat-Lite ⚡") = Except.ok "GigaChat"
    ∧ ("key8w" : String) ≠ ""
    ∧ okEnv.templateOk "Classify" = Except.ok ()
    ∧ okEnv.clientOk ⟨"GigaChat", "key8w", firstToken "GIGACHAT_API_CORP", 0, false⟩ =
        Except.ok ()
    ∧ firstToken "GIGACHAT_API_CORP" = "GIGACHAT_API_CORP" :=
  ⟨rfl, by decide, rfl, rfl,
   (C8_amended_scope okEnv docxFile "Classify" "key8w" "GigaChat-Lite ⚡"
     "GIGACHAT_API_CORP" "GigaChat" fs0 rfl (by decide) rfl rfl).2 (Or.inl rfl)⟩

/-- C10: when extraction yields no text, `extract_text_from_file` returns
the absence of a value (`None`) rather than an empty string, and `main`
still substitutes that absent text into the prompt and makes the chat
call instead of aborting: the unsupported-format branch always returns
`None`, the returned value is not the empty string, and the chat-call
effect with `None` as the document text occurs in the run. -/
theorem C10_none_still_invoked (env : Env) (file : UploadedFile)
    (prompt api_key mc sc m : String) (fs : FS)
    (hm : get_model (firstToken mc) = Except.ok m)
    (hkey : api_key ≠ "")
    (ht : env.templateOk prompt = Except.ok ())
    (hc : env.clientOk ⟨m, api_key, firstToken sc, 0, false⟩ = Except.ok ())
    (hnone : (extract_text_from_file env (env.uuid ++ "_" ++ file.name)).1 = Except.ok none) :
    (∀ p, strEndsWith p ".docx" = false → strEndsWith p ".pdf" = false →
      (extract_text_from_file env p).1 = Except.ok none)
    ∧ (extract_text_from_file env (env.uuid ++ "_" ++ file.name)).1 ≠ Except.ok (some "")
    ∧ Effect.chatCall ⟨m, api_key, firstToken sc, 0, false⟩ prompt none ∈
        (main env (some file) prompt api_key mc sc true fs).effects := by
  refine ⟨?_, ?_, ?_⟩
  · intro p h1 h2
    unfold extract_text_from_file extract_try
    rw [h1, h2]
    rfl
  · rw [hnone]
    simp
  · rcases hE : extract_text_from_file env (env.uuid ++ "_" ++ file.name) with ⟨ev, effs1⟩
    rw [hE] at hnone
    have hv2 : ev = Except.ok none := hnone
    subst hv2
    cases hi : env.invoke prompt ⟨m, api_key, firstToken sc, 0, false⟩ none with
    | ok r =>
      rw [main_run_ok env file prompt api_key mc sc m fs none effs1 r hm hkey hE ht hc hi]
      simp
    | error e =>
      rw [main_run_err env file prompt api_key mc sc m fs none effs1 e hm hkey hE ht hc hi]
      simp

/-- C10 witness: with a corrupt docx file the extractor fails, extraction
returns no text, and the chat call is still made with the absent text. -/
theorem C10_witness :
    (extract_text_from_file docxFailEnv (docxFailEnv.uuid ++ "_" ++ docxFile.name)).1 =
      Except.ok none
    ∧ ("key10" : String) ≠ ""
    ∧ Effect.chatCall ⟨"GigaChat", "key10", firstToken "GIGACHAT_API_B2B", 0, false⟩
        "Classify" none ∈
      (main docxFailEnv (some docxFile) "Classify" "key10" "GigaChat-Lite ⚡"
        "GIGACHAT_API_B2B" true fs0).effects :=
  ⟨rfl, by decide,
   (C10_none_still_invoked docxFailEnv docxFile "Classify" "key10" "GigaChat-Lite ⚡"
     "GIGACHAT_API_B2B" "GigaChat" fs0 rfl (by decide) rfl rfl rfl).2.2⟩

end App
